import Mathlib

/-!
Verification development for the egress-cost-optimizer pipeline.

Each Python module under src/ is shallowly embedded as a namespace of
executable Lean definitions: pure helpers become Lean functions, the
Lambda handlers become explicit state-passing functions over a world
record that tracks the cloud-resource state and the trace of AWS API
calls they issue.  AWS service calls are modelled as deterministic
state transitions (the success behaviour documented for each API);
failure of collaborator calls is injected through explicit
`Except`-valued oracle fields where a claim depends on it.
-/

/-- Python truthiness of an optional string setting (`os.environ.get`):
`None` and the empty string are falsy, every other string is truthy. -/
def pyTruthy : Option String → Bool
  | none => false
  | some s => !s.isEmpty

/-- A botocore `ClientError`, as observed by the handlers: the error code
(`e.response['Error']['Code']`) and the error message. -/
structure ClientErr where
  code : String
  message : String
deriving DecidableEq, Repr

/-- Fuel-driven worker for `pySplit`: scans the character list, cutting a
chunk whenever the (non-empty) separator is a prefix of the remainder.
The fuel starts above the list length, so the fallback first branch is
never reached for the actual inputs. -/
def splitFuel (sep : List Char) : Nat → List Char → List Char → List (List Char)
  | 0, l, acc => [acc ++ l]
  | _ + 1, [], acc => [acc]
  | fuel + 1, c :: rest, acc =>
      if sep.isPrefixOf (c :: rest) then
        acc :: splitFuel sep fuel (List.drop (sep.length - 1) rest) []
      else
        splitFuel sep fuel rest (acc ++ [c])

/-- Executable model of Python `str.split(sep)` for a non-empty
separator (agreeing with `String.splitOn`, but defined by structural
recursion so that concrete instances reduce inside the kernel). -/
def pySplit (s sep : String) : List String :=
  (splitFuel sep.toList (s.toList.length + 1) s.toList []).map (fun cs => String.mk cs)

namespace RemediationOrchestrator

/-!
Embedding of
`src/application_logic/lambda_functions/remediation_orchestrator/index.py`.
-/

/-- The four-flag S3 public-access-block configuration written by
`remediate_s3_public_access` (index.py lines 30–38). -/
structure PublicAccessBlockConfiguration where
  blockPublicAcls : Bool
  ignorePublicAcls : Bool
  blockPublicPolicy : Bool
  restrictPublicBuckets : Bool
deriving DecidableEq, Repr

/-- One entry of a security group's `IpPermissions` list.  In the boto3
response each entry carries a protocol, a port range and a list of
`IpRanges`; we record each range by its `CidrIp` string.  (The code's
`'IpRanges' in ip_permission` membership test is always true in a
`describe_security_groups` response, where the key is present with a
possibly empty list.) -/
structure IpPermission where
  ipProtocol : String
  fromPort : Int
  toPort : Int
  ipRanges : List String
deriving DecidableEq, Repr

/-- Outcome dictionary `{"status": ..., "message": ...}` returned by the
remediation helpers (index.py lines 40, 75, 78, 121). -/
structure RemediationResult where
  status : String
  message : String
deriving DecidableEq, Repr

/-- An AWS API call issued by the orchestrator, recorded in the world
trace in issue order. -/
inductive AwsCall where
  | putPublicAccessBlock (bucket : String) (cfg : PublicAccessBlockConfiguration)
  | revokeSecurityGroupIngress (groupId : String) (ipPermissions : List IpPermission)
  | snsPublish (topicArn : String) (subject : String) (message : String)
deriving DecidableEq, Repr

/-- A call mutates infrastructure exactly when it is an S3
public-access-block write or a security-group rule revocation; an SNS
publish only notifies. -/
def AwsCall.isMutating : AwsCall → Bool
  | .putPublicAccessBlock _ _ => true
  | .revokeSecurityGroupIngress _ _ => true
  | .snsPublish _ _ _ => false

/-- World state threaded through the orchestrator: the per-bucket S3
public-access-block configuration, the per-group security-group ingress
permissions, and the trace of AWS calls issued so far. -/
structure OrchWorld where
  s3PublicAccess : String → PublicAccessBlockConfiguration
  sgPermissions : String → List IpPermission
  trace : List AwsCall

/-- The unrestricted CIDR range tested at index.py line 63. -/
def unrestricted : String := "0.0.0.0/0"

/-- index.py lines 27 / 53: `resource_id.split(sep)[-1]`. -/
def lastSplitPart (resource_id sep : String) : String :=
  (pySplit resource_id sep).getLastD resource_id

/-- The selection loop of `remediate_security_group` (index.py lines
57–66): for each `IpPermission`, for each of its IP ranges, if the
range's CIDR is `0.0.0.0/0` the whole permission entry is appended to
`ingress_rules_to_revoke` (once per matching range). -/
def selectRevoke : List IpPermission → List IpPermission
  | [] => []
  | p :: rest =>
      ((p.ipRanges.filter (fun r => r = unrestricted)).map (fun _ => p)) ++ selectRevoke rest

/-- Modelled EC2-side success semantics of `revoke_security_group_ingress`
(a collaborator API, not repository code): every (protocol, port range,
CIDR) pair listed in the request is removed from the group's ingress rule
set, and permission entries left with no ranges disappear. -/
def applyRevoke (perms revoked : List IpPermission) : List IpPermission :=
  (perms.map (fun p =>
    { p with ipRanges := p.ipRanges.filter (fun r =>
        !(revoked.any (fun q =>
            q.ipProtocol = p.ipProtocol && q.fromPort = p.fromPort &&
            q.toPort = p.toPort && q.ipRanges.contains r))) })).filter
    (fun p => !p.ipRanges.isEmpty)

/-- `remediate_s3_public_access` (index.py lines 22–46): extracts the
bucket from the ARN and unconditionally writes the all-true
public-access-block configuration, reporting `success`.  The API call
is modelled as succeeding, so the re-raise branches are not taken. -/
def remediate_s3_public_access (w : OrchWorld) (resource_id : String) :
    RemediationResult × OrchWorld :=
  let bucket_name := lastSplitPart resource_id ":::"
  let cfg : PublicAccessBlockConfiguration := ⟨true, true, true, true⟩
  (⟨"success", "Blocked public access for S3 bucket " ++ bucket_name ++ "."⟩,
   { w with
       s3PublicAccess := fun b => if b = bucket_name then cfg else w.s3PublicAccess b,
       trace := w.trace ++ [AwsCall.putPublicAccessBlock bucket_name cfg] })

/-- `remediate_security_group` (index.py lines 48–85): reads the group's
current ingress permissions, selects the entries to revoke with
`selectRevoke`, and either issues one `revoke_security_group_ingress`
call for them (status `success`) or, when the selection is empty, issues
no call and reports `no_action`. -/
def remediate_security_group (w : OrchWorld) (resource_id : String) :
    RemediationResult × OrchWorld :=
  let sg_id := lastSplitPart resource_id "/"
  let perms := w.sgPermissions sg_id
  let ingress_rules_to_revoke := selectRevoke perms
  if ingress_rules_to_revoke.isEmpty then
    (⟨"no_action", "No overly permissive rules found for SG " ++ sg_id ++ "."⟩, w)
  else
    (⟨"success", "Revoked overly permissive ingress rules from SG " ++ sg_id ++ "."⟩,
     { w with
         sgPermissions := fun g =>
           if g = sg_id then applyRevoke perms ingress_rules_to_revoke
           else w.sgPermissions g,
         trace := w.trace ++ [AwsCall.revokeSecurityGroupIngress sg_id ingress_rules_to_revoke] })

/-- The Step Functions event consumed by the orchestrator handler:
`action` and `resourceId` may be absent, `anomalyDetails` is an opaque
passthrough (we carry its `json.dumps` rendering). -/
structure Event where
  action : Option String
  resourceId : Option String
  anomalyDetailsJson : String
deriving DecidableEq, Repr

/-- Body of the handler's HTTP-style response: either `json.dumps` of a
plain string or of a remediation result dictionary.  `json.dumps` is an
injective serialization, so we keep the unserialized value. -/
inductive Body where
  | jsonStr (s : String)
  | jsonResult (r : RemediationResult)
deriving DecidableEq, Repr

/-- The handler's return dictionary `{statusCode, body}`. -/
structure Response where
  statusCode : Nat
  body : Body
deriving DecidableEq, Repr

/-- `lambda_handler` (index.py lines 87–150): configuration guard,
input-validation guard, dispatch table on `action`, then the SNS audit
mirror of the outcome.  AWS calls are modelled as succeeding, so the
`except` failure path (lines 137–150) is not taken. -/
def lambda_handler (snsAnomalyTopicArn : Option String) (event : Event)
    (w : OrchWorld) : Response × OrchWorld :=
  if !(pyTruthy snsAnomalyTopicArn) then
    (⟨500, Body.jsonStr "Configuration error: Missing SNS_ANOMALY_TOPIC_ARN."⟩, w)
  else if !(pyTruthy event.action) || !(pyTruthy event.resourceId) then
    (⟨400, Body.jsonStr "Bad Request: Missing action or resourceId."⟩, w)
  else
    let topic := snsAnomalyTopicArn.getD ""
    let action := event.action.getD ""
    let resource_id := event.resourceId.getD ""
    let step :=
      if action = "remediate_s3_public_access" then
        remediate_s3_public_access w resource_id
      else if action = "remediate_security_group" then
        remediate_security_group w resource_id
      else
        (⟨"skipped", "Unknown action \x27" ++ action ++ "\x27."⟩, w)
    let remediation_result := step.1
    let w2 := step.2
    let subject := "Egress Remediation Status: " ++ remediation_result.status.toUpper ++
      " for " ++ action ++ " on " ++ resource_id
    let message := "Remediation Action: " ++ action ++
      "\nResource ID: " ++ resource_id ++
      "\nStatus: " ++ remediation_result.status ++
      "\nMessage: " ++ remediation_result.message ++
      "\nAnomaly Details: " ++ event.anomalyDetailsJson
    (⟨200, Body.jsonResult remediation_result⟩,
     { w2 with trace := w2.trace ++ [AwsCall.snsPublish topic subject message] })

/-- All CIDR ranges revoked anywhere in a call trace. -/
def revokedRanges : List AwsCall → List String
  | [] => []
  | .revokeSecurityGroupIngress _ ps :: rest =>
      (ps.map (fun p => p.ipRanges)).flatten ++ revokedRanges rest
  | _ :: rest => revokedRanges rest

/-- Concrete world used as the C1 counterexample: security group
`sg-0a1b2c3d` has one ingress permission entry whose IP ranges are the
unrestricted range and the private block `10.0.0.0/8`. -/
def exWorld : OrchWorld where
  s3PublicAccess := fun _ => ⟨false, false, false, false⟩
  sgPermissions := fun g =>
    if g = "sg-0a1b2c3d" then [⟨"tcp", 22, 22, ["0.0.0.0/0", "10.0.0.0/8"]⟩] else []
  trace := []

/-- Resource id of the counterexample security group. -/
def exRid : String := "arn:aws:ec2:us-east-1:111122223333:security-group/sg-0a1b2c3d"

end RemediationOrchestrator

namespace AnomalyDetectorTrigger

/-!
Embedding of
`src/application_logic/lambda_functions/anomaly_detector_trigger/index.py`.

The module references `io.BytesIO` at line 55 but never imports `io`, so
every run in which the S3 fetch succeeds raises `NameError` at that
line; the outer generic `except Exception` handler (lines 135–147)
publishes a critical alert and returns a structured 500 result.  The
only paths that do not end in that handler are the configuration guard
and the `NoSuchKey` early return (lines 57–63).
-/

/-- The four environment variables read at module load (lines 24–27). -/
structure TriggerEnv where
  sagemakerEndpointName : Option String
  processedDataBucket : Option String
  snsAnomalyTopicArn : Option String
  stepFunctionArn : Option String
deriving DecidableEq, Repr

/-- The Lambda context object fields used in the alert messages. -/
structure TriggerCtx where
  functionName : String
  invokedFunctionArn : String
deriving DecidableEq, Repr

/-- Observable side effects of one handler run: SNS `(subject, message)`
pairs published, SageMaker endpoint invocations, and Step Function
executions started. -/
structure TriggerWorld where
  published : List (String × String)
  endpointInvocations : Nat
  executionsStarted : Nat
deriving DecidableEq, Repr

/-- The handler's return dictionary; `body` carries the `json.dumps`
argument. -/
structure TriggerResponse where
  statusCode : Nat
  body : String
deriving DecidableEq, Repr

/-- Line 37: `all([...])` over the four settings, with Python
truthiness. -/
def envComplete (env : TriggerEnv) : Bool :=
  pyTruthy env.sagemakerEndpointName && pyTruthy env.processedDataBucket &&
  pyTruthy env.snsAnomalyTopicArn && pyTruthy env.stepFunctionArn

/-- The Python `NameError` message raised at line 55 (`io` unimported). -/
def nameErrorMsg : String := "name \x27io\x27 is not defined"

/-- `lambda_handler` (index.py lines 29–147).  The one external call
whose outcome can vary before the unconditional `NameError` is
`s3.get_object` (line 54), injected as `s3Object`; everything after it
is determined.  The function is total: no exception propagates to the
caller, mirroring the outer `except` blocks. -/
def lambda_handler (env : TriggerEnv) (ctx : TriggerCtx)
    (s3Object : Except ClientErr String) : TriggerResponse × TriggerWorld :=
  if !(envComplete env) then
    (⟨500, "Configuration error: Missing environment variables."⟩, ⟨[], 0, 0⟩)
  else
    match s3Object with
    | .error e =>
        if e.code = "NoSuchKey" then
          (⟨200, "No new data for inference."⟩, ⟨[], 0, 0⟩)
        else
          (⟨500, "AWS Client Error: " ++ e.message⟩,
           ⟨[("CRITICAL: Egress Anomaly Detector Trigger Failed in " ++ ctx.functionName,
              "An AWS client error occurred: " ++ e.message ++
              "\nFunction ARN: " ++ ctx.invokedFunctionArn)], 0, 0⟩)
    | .ok _ =>
        (⟨500, "Internal Server Error: " ++ nameErrorMsg⟩,
         ⟨[("CRITICAL: Egress Anomaly Detector Trigger Failed in " ++ ctx.functionName,
            "An unexpected error occurred: " ++ nameErrorMsg ++
            "\nFunction ARN: " ++ ctx.invokedFunctionArn)], 0, 0⟩)

/-- An error occurs during the cycle (after the configuration guard)
exactly when the S3 fetch fails with something other than `NoSuchKey`,
or it succeeds and line 55 raises `NameError`. -/
def cycleError (s3Object : Except ClientErr String) : Prop :=
  match s3Object with
  | .error e => e.code ≠ "NoSuchKey"
  | .ok _ => True

end AnomalyDetectorTrigger

namespace BedrockAnalyzer

/-!
Embedding of
`src/application_logic/lambda_functions/bedrock_analyzer/index.py`.
-/

/-- Fields of an AWS Config configuration item rendered at index.py
line 51. -/
structure ConfigItem where
  captureTime : String
  changeType : String
  itemStatus : String
deriving DecidableEq, Repr

/-- Fields of a CloudTrail event rendered at index.py line 72. -/
structure TrailEvent where
  eventTime : String
  eventName : String
  username : String
deriving DecidableEq, Repr

/-- Fields of a Cost Explorer `ResultsByTime` entry rendered at
index.py line 96. -/
structure CostRow where
  startDate : String
  amount : String
  unit : String
deriving DecidableEq, Repr

/-- Outcomes of the three read-only evidence lookups, injected as an
oracle: each either returns its items or raises a `ClientError`. -/
structure EvidenceOracle where
  configHistory : Except ClientErr (List ConfigItem)
  trailEvents : Except ClientErr (List TrailEvent)
  costUsage : Except ClientErr (List CostRow)

/-- Python exceptions distinguished by the analyzer's control flow. -/
inductive PyExc where
  | indexError
  | clientExc (e : ClientErr)
  | generic (msg : String)
deriving DecidableEq, Repr

/-- `str(e)` for the exceptions above, as interpolated into messages. -/
def renderExc : PyExc → String
  | .indexError => "list index out of range"
  | .clientExc e => e.message
  | .generic msg => msg

/-- `get_contextual_data` (index.py lines 31–110).  Each of the three
sections appends its header, item lines and a trailing empty string only
when the lookup returned a non-empty result; a `ClientError` from a
lookup is swallowed with a warning.  Building the CloudTrail lookup
attributes evaluates `resource_id.split('/')[6]` (line 64), which raises
an uncaught `IndexError` whenever the resource id has fewer than seven
`/`-separated parts; timestamp arithmetic is treated as opaque. -/
def get_contextual_data (resource_id : String) (o : EvidenceOracle) :
    Except PyExc String :=
  let ctx1 : List String :=
    match o.configHistory with
    | .error _ => []
    | .ok items =>
        if items.isEmpty then []
        else ("--- AWS Config Recent Changes ---" ::
              items.map (fun it =>
                "Timestamp: " ++ it.captureTime ++ ", ChangeType: " ++ it.changeType ++
                ", Status: " ++ it.itemStatus)) ++ [""]
  if (pySplit resource_id "/").length < 7 then
    .error .indexError
  else
    let ctx2 : List String :=
      match o.trailEvents with
      | .error _ => []
      | .ok events =>
          if events.isEmpty then []
          else ("--- AWS CloudTrail Recent Events ---" ::
                (events.take 5).map (fun e =>
                  "EventTime: " ++ e.eventTime ++ ", EventName: " ++ e.eventName ++
                  ", User: " ++ e.username)) ++ [""]
    let ctx3 : List String :=
      match o.costUsage with
      | .error _ => []
      | .ok results =>
          if results.isEmpty then []
          else ("--- AWS Cost Explorer Snapshot ---" ::
                results.map (fun r =>
                  "Date: " ++ r.startDate ++ ", Total Cost: " ++ r.amount ++ " " ++ r.unit)) ++ [""]
    .ok (String.intercalate "\n" (ctx1 ++ ctx2 ++ ctx3))

/-- The environment variables read at module load (lines 26–28). -/
structure AnalyzerEnv where
  bedrockModelId : Option String
  snsAnomalyTopicArn : Option String
  processedDataBucket : Option String
deriving DecidableEq, Repr

/-- The Step Functions event consumed by the analyzer handler; `details`
is an opaque passthrough carried as its `json.dumps` rendering. -/
structure AnalyzerEvent where
  resourceId : Option String
  anomalyType : Option String
  costImpact : Option String
  detailsJson : String
deriving DecidableEq, Repr

/-- Collaborator outcomes injected into one handler run: the S3 prompt
template fetch, the three evidence lookups, the Bedrock completion, and
the SNS publish.  The completion is oracle-chosen (the generative model
is an external collaborator, so its output is unconstrained by the
prompt). -/
structure AnalyzerOracle where
  promptTemplate : Except ClientErr String
  evidence : EvidenceOracle
  bedrockCompletion : Except ClientErr String
  snsPublish : Except ClientErr Unit

/-- The handler's success dictionary `{statusCode, body, llm_analysis}`;
`llm` is `none` on the 500 paths, which return no `llm_analysis` key. -/
structure AnalyzerResponse where
  statusCode : Nat
  body : String
  llm : Option String
deriving DecidableEq, Repr

/-- Model of `str.format` at index.py lines 210–216: substitution of the
five named placeholders into the fetched template. -/
def renderPrompt (template anomaly_type resource_id cost_impact anomaly_details
    context_data : String) : String :=
  ((((template.replace "\x7banomaly_type\x7d" anomaly_type).replace
      "\x7bresource_id\x7d" resource_id).replace
      "\x7bcost_impact\x7d" cost_impact).replace
      "\x7banomaly_details\x7d" anomaly_details).replace
      "\x7bcontext_data\x7d" context_data

/-- `json.dumps(event)` as interpolated into the failure alert. -/
def renderEvent (event : AnalyzerEvent) : String :=
  "resourceId=" ++ event.resourceId.getD "null" ++
  " anomalyType=" ++ event.anomalyType.getD "null" ++
  " costImpact=" ++ event.costImpact.getD "null" ++
  " details=" ++ event.detailsJson

/-- `lambda_handler` (index.py lines 170–252).  Returns the handler's
result (or the exception it re-raises when even the failure-alert
publish fails, since `publish_enriched_alert` re-raises and the
`except` block has no further guard) together with the list of SNS
alerts actually published. -/
def lambda_handler (env : AnalyzerEnv) (event : AnalyzerEvent)
    (o : AnalyzerOracle) : Except PyExc AnalyzerResponse × List (String × String) :=
  if !(pyTruthy env.bedrockModelId && pyTruthy env.snsAnomalyTopicArn &&
       pyTruthy env.processedDataBucket) then
    (.ok ⟨500, "Configuration error: Missing environment variables.", none⟩, [])
  else
    let resource_id := event.resourceId.getD "N/A"
    let anomaly_type := event.anomalyType.getD "EgressCostSpike"
    let cost_impact := event.costImpact.getD "N/A"
    let failPath : PyExc → Except PyExc AnalyzerResponse × List (String × String) :=
      fun exc =>
        match o.snsPublish with
        | .ok _ =>
            (.ok ⟨500, "Internal Server Error: " ++ renderExc exc, none⟩,
             [("CRITICAL: Bedrock Analyzer Failed for " ++ resource_id,
               "Bedrock analysis failed for anomaly on resource " ++ resource_id ++
               " (Type: " ++ anomaly_type ++ "). Error: " ++ renderExc exc ++
               "\nFull event: " ++ renderEvent event)])
        | .error e2 => (.error (.clientExc e2), [])
    match o.promptTemplate with
    | .error e => failPath (.clientExc e)
    | .ok prompt_template =>
      if prompt_template = "" then
        failPath (.generic "Failed to load Bedrock prompt template.")
      else
        match get_contextual_data resource_id o.evidence with
        | .error exc => failPath exc
        | .ok context_data =>
          let _full_prompt := renderPrompt prompt_template anomaly_type resource_id
            cost_impact event.detailsJson context_data
          match o.bedrockCompletion with
          | .error e => failPath (.clientExc e)
          | .ok llm_response_text =>
            let subject := "Egress Anomaly Detected: " ++ anomaly_type ++ " on " ++ resource_id
            let message := "An egress cost anomaly has been detected.\n\n" ++
              "Anomaly Type: " ++ anomaly_type ++
              "\nResource ID: " ++ resource_id ++
              "\nCost Impact: $" ++ cost_impact ++
              "\n\n--- AI-Powered Root Cause Analysis & Recommendations ---\n" ++
              llm_response_text ++
              "\n\n--- Raw Anomaly Details ---\n" ++ event.detailsJson
            match o.snsPublish with
            | .ok _ =>
                (.ok ⟨200, "Bedrock analysis completed and alert sent.", some llm_response_text⟩,
                 [(subject, message)])
            | .error e => failPath (.clientExc e)

/-- A lookup "finds nothing or fails with a collaborator error". -/
def emptyOrClientErr {α : Type} (r : Except ClientErr (List α)) : Prop :=
  r = .ok [] ∨ ∃ e, r = .error e

end BedrockAnalyzer

namespace PandasModel

/-!
Shared model of the pandas DataFrames handled by the SageMaker scripts.
A frame is a list of rows; a row is a list of named cells.  Numeric
cells carry exact numbers (the claims proved over these scripts are
structural, none depends on float rounding). -/

/-- A DataFrame cell: numeric or non-numeric (string) dtype. -/
inductive Value where
  | num (x : Int)
  | str (s : String)
deriving DecidableEq, Repr

/-- One DataFrame row: cells keyed by column name. -/
abbrev Row := List (String × Value)

/-- The values `select_dtypes(include=np.number)` keeps from a row. -/
def numericValues (r : Row) : List Int :=
  r.filterMap (fun p => match p.2 with | .num x => some x | .str _ => none)

/-- `features.empty` after `select_dtypes`: a pandas frame is empty when
either axis has length zero, i.e. there are no rows or no row has a
numeric cell. -/
def noNumericFeatures (rows : List Row) : Bool :=
  rows.isEmpty || rows.all (fun r => (numericValues r).isEmpty)

/-- Pandas column assignment `df[name] = v` at one row: replaces the
cell in place when the column exists, otherwise appends it. -/
def setField (r : Row) (n : String) (v : Value) : Row :=
  if r.any (fun p => p.1 = n) then
    r.map (fun p => if p.1 = n then (n, v) else p)
  else
    r ++ [(n, v)]

end PandasModel

namespace InferenceScript

/-!
Embedding of `src/ml_models/anomaly_detection/inference_script.py`.
-/

open PandasModel

/-- The loaded Isolation Forest artifact: `predict` maps one feature
row to `-1` (outlier) or `1` (inlier) and `decision_function` maps it
to its score (both are row-wise scikit-learn operations on the numeric
feature matrix; the fitted forest itself is an external artifact). -/
structure IFModel where
  predictRow : List Int → Int
  decisionRow : List Int → Int

/-- Errors the serving functions raise. -/
inductive InfError where
  | valueError (msg : String)
deriving DecidableEq, Repr

/-- `predict_fn` (inference_script.py lines 52–76): selects the numeric
columns, raises `ValueError` when that selection is empty, otherwise
computes `predictions` and `decision_function` over them and assigns
the `is_anomaly` (1 iff prediction is -1) and `anomaly_score` columns
on the input frame, which it returns. -/
def predict_fn (input_data : List Row) (model : IFModel) :
    Except InfError (List Row) :=
  if noNumericFeatures input_data then
    .error (.valueError
      "No numerical features found in input data for prediction. Check input schema.")
  else
    .ok (input_data.map (fun r =>
      setField
        (setField r "is_anomaly"
          (Value.num (if model.predictRow (numericValues r) = -1 then 1 else 0)))
        "anomaly_score" (Value.num (model.decisionRow (numericValues r)))))

/-- `output_fn` (inference_script.py lines 78–91): serializes the
prediction frame for the accepted content type.  `to_json(orient=
'records')` / `to_csv` are injective row-by-row serializations, so the
payload is modelled as the row list itself, paired with the content
type. -/
def output_fn (prediction_output : List Row) (accept_content_type : String) :
    Except InfError (List Row × String) :=
  if accept_content_type = "application/json" then
    .ok (prediction_output, accept_content_type)
  else if accept_content_type = "text/csv" then
    .ok (prediction_output, accept_content_type)
  else
    .error (.valueError ("Unsupported accept type: " ++ accept_content_type ++
      ". This endpoint supports \x27application/json\x27 and \x27text/csv\x27."))

/-- The spec's `score` operation: `predict_fn` followed by `output_fn`,
as wired by the SageMaker serving container. -/
def score (rows : List Row) (model : IFModel) (accept : String) :
    Except InfError (List Row × String) :=
  match predict_fn rows model with
  | .error e => .error e
  | .ok out => output_fn out accept

end InferenceScript

namespace TrainingScript

/-!
Embedding of `src/ml_models/anomaly_detection/training_script.py`.
-/

open PandasModel

/-- Errors the training `__main__` body raises before fitting. -/
inductive TrainError where
  | valueError (msg : String)
deriving DecidableEq, Repr

/-- The spec's `train` operation: the `__main__` body of
training_script.py from the loaded frame onward (lines 52–69).  It
selects the numeric columns, raises `ValueError` when the selection is
empty (which includes the zero-row frame, since a pandas frame with no
rows is empty), and otherwise hands the feature matrix to
`IsolationForest.fit`; the fitted forest is an external scikit-learn
artifact, so the function returns the matrix that is fitted.  (The
earlier guard at lines 40–41 rejects an empty training channel — no
input files — with a `ValueError` as well.)  The hyperparameters
`n_estimators`, `contamination` and `random_state` configure the
external forest and do not affect the guards modelled here. -/
def train (rows : List Row) : Except TrainError (List (List Int)) :=
  if noNumericFeatures rows then
    .error (.valueError
      "No numerical features found in the training data. Check feature engineering output.")
  else
    .ok (rows.map numericValues)

end TrainingScript

namespace FeatureBuilder

/-!
Embedding of
`src/data_processing_scripts/sagemaker_processing_scripts/feature_engineering.py`,
exposed as the spec's `fit`/`transform` contract (§4.1): the script
builds a `ColumnTransformer` of a `StandardScaler` over
`['daily_egress_cost_usd', 'daily_egress_usage_amount']` and a
`OneHotEncoder(handle_unknown='ignore')` over
`['service_code', 'region', 'usage_type', 'day_of_week', 'month']`,
and calls `fit_transform` on the loaded frame (lines 60–72).  The
remaining frame columns (`date`, `day_of_month`, `week_of_year`,
`is_weekend`, ...) are dropped by the `ColumnTransformer`'s default
remainder policy.
-/

/-- Calendar projections of the `usage_date` column, as produced by the
pandas `dt` accessors at lines 42–47 (pure library functions of the
date; modelled as fields since no claim depends on calendar
arithmetic). -/
structure CalDate where
  dayOfWeek : Nat
  dayOfMonth : Nat
  month : Nat
  weekOfYear : Nat
deriving DecidableEq, Repr

/-- One UsageObservation row of the input frame, with the columns the
script consumes. -/
structure Obs where
  usage_date : CalDate
  service_code : String
  region : String
  usage_type : String
  daily_egress_cost_usd : Rat
  daily_egress_usage_amount : Rat
deriving DecidableEq, Repr

/-- The five categorical features, in the order of the script's
`categorical_features` list (line 60). -/
inductive CatField where
  | service
  | region
  | usageType
  | dayOfWeek
  | month
deriving DecidableEq, Repr, Fintype

/-- `categorical_features` order. -/
def CatField.all : List CatField := [.service, .region, .usageType, .dayOfWeek, .month]

/-- The categorical value an observation carries for a feature (the
`day_of_week` and `month` integer categories are compared by value;
we carry their canonical decimal rendering). -/
def catValue (o : Obs) : CatField → String
  | .service => o.service_code
  | .region => o.region
  | .usageType => o.usage_type
  | .dayOfWeek => toString o.usage_date.dayOfWeek
  | .month => toString o.usage_date.month

/-- The fitted preprocessor artifact: per numeric column the fitted
mean and variance, per categorical feature the fitted vocabulary.
scikit-learn's stored scale is `sqrt(variance)` (with zero variance
mapped to scale 1); the square root is irrational in general, so the
artifact keeps the rational variance — no claim proved here depends on
the numeric value of the scale, only on its fit-time provenance. -/
structure FittedPreprocessor where
  costMean : Rat
  costVar : Rat
  usageMean : Rat
  usageVar : Rat
  vocab : CatField → List String

/-- Error raised on a zero-observation input: the spec's
`EmptyInputError`.  (In the Python stack the raise is a `ValueError`
from scikit-learn's `check_array(ensure_min_samples=1)` inside
`fit_transform`/`transform`; the script's own lines 28–30 reject the
no-input-files case with a `ValueError` too.) -/
inductive FBError where
  | emptyInput
deriving DecidableEq, Repr

/-- Mean of a column. -/
def listMean (xs : List Rat) : Rat := xs.sum / (xs.length : Rat)

/-- Population variance of a column, as `StandardScaler` computes it. -/
def listVar (xs : List Rat) : Rat :=
  listMean (xs.map (fun x => (x - listMean xs) ^ 2))

/-- `StandardScaler`'s guard mapping zero variance to a unit scale; see
`FittedPreprocessor` for why the rational variance stands in for its
square root. -/
def scaleOfVar (v : Rat) : Rat := if v = 0 then 1 else v

/-- `OneHotEncoder.fit`'s vocabulary for one feature: the sorted unique
values seen. -/
def sortedUnique (l : List String) : List String :=
  (l.mergeSort (fun a b => a ≤ b)).dedup

/-- The spec's `fit`: fitting the preprocessor over the observations
(`preprocessor.fit_transform`'s fitting half, line 72).  Zero
observations raise the empty-input error. -/
def fit (observations : List Obs) : Except FBError FittedPreprocessor :=
  if observations.isEmpty then .error .emptyInput
  else
    .ok
      { costMean := listMean (observations.map (fun o => o.daily_egress_cost_usd))
        costVar := listVar (observations.map (fun o => o.daily_egress_cost_usd))
        usageMean := listMean (observations.map (fun o => o.daily_egress_usage_amount))
        usageVar := listVar (observations.map (fun o => o.daily_egress_usage_amount))
        vocab := fun f => sortedUnique (observations.map (fun o => catValue o f)) }

/-- `OneHotEncoder.transform` for one feature of one observation with
`handle_unknown='ignore'`: the indicator column for each vocabulary
entry, all zero when the value is not in the vocabulary. -/
def oheIndicator (vocab : List String) (v : String) : List Rat :=
  vocab.map (fun c => if c = v then 1 else 0)

/-- The indicator block a fitted transform emits for one categorical
feature of one observation. -/
def indicatorBlock (t : FittedPreprocessor) (o : Obs) (f : CatField) : List Rat :=
  oheIndicator (t.vocab f) (catValue o f)

/-- The two standardized numeric columns of one transformed row. -/
def scaledNumeric (t : FittedPreprocessor) (o : Obs) : List Rat :=
  [(o.daily_egress_cost_usd - t.costMean) / scaleOfVar t.costVar,
   (o.daily_egress_usage_amount - t.usageMean) / scaleOfVar t.usageVar]

/-- One row of the transformed output: the scaled numeric columns
followed by the five one-hot blocks in `categorical_features` order. -/
def transformRow (t : FittedPreprocessor) (o : Obs) : List Rat :=
  scaledNumeric t o ++
  (CatField.all.map (fun f => indicatorBlock t o f)).flatten

/-- The spec's `transform`: applying the fitted preprocessor to a batch
of observations.  Zero observations raise the empty-input error (from
`check_array(ensure_min_samples=1)`). -/
def transform (t : FittedPreprocessor) (observations : List Obs) :
    Except FBError (List (List Rat)) :=
  if observations.isEmpty then .error .emptyInput
  else .ok (observations.map (fun o => transformRow t o))

/-- Concrete one-entry vocabularies for the unseen-category witness. -/
def exVocab : CatField → List String
  | .service => ["AmazonEC2"]
  | .region => ["us-east-1"]
  | .usageType => ["DataTransfer-Out-Bytes"]
  | .dayOfWeek => ["0"]
  | .month => ["1"]

/-- Concrete fitted preprocessor for the unseen-category witness. -/
def exFitted : FittedPreprocessor :=
  { costMean := 0, costVar := 1, usageMean := 0, usageVar := 1, vocab := exVocab }

/-- Observation whose categorical values are all in `exVocab`. -/
def exObsSeen : Obs :=
  { usage_date := ⟨0, 1, 1, 1⟩
    service_code := "AmazonEC2"
    region := "us-east-1"
    usage_type := "DataTransfer-Out-Bytes"
    daily_egress_cost_usd := 5
    daily_egress_usage_amount := 10 }

/-- Same observation with a region `exVocab` has never seen. -/
def exObsUnseen : Obs := { exObsSeen with region := "eu-west-1" }

end FeatureBuilder

namespace InferenceScript

/-- Two-row inference batch for the order-preservation witness. -/
def exRows : List PandasModel.Row :=
  [[("resource_id", .str "i-0abc"), ("daily_egress_cost_usd", .num 100)],
   [("resource_id", .str "i-1def"), ("daily_egress_cost_usd", .num 2)]]

/-- Concrete model for the order-preservation witness: flags rows with
cost at least 50 and scores them by negated cost. -/
def exModel : IFModel :=
  { predictRow := fun v => if 50 ≤ v.headD 0 then -1 else 1
    decisionRow := fun v => -(v.headD 0) }

end InferenceScript

/-! ## Theorems -/

/-- A non-empty optional string is Python-truthy. -/
theorem pyTruthy_some_of_ne {s : String} (h : s ≠ "") : pyTruthy (some s) = true := by
  have : s.isEmpty = false := by
    cases hs : s.isEmpty
    · rfl
    · exact absurd ((String.isEmpty_iff s).mp hs) h
  simp [pyTruthy, this]

namespace RemediationOrchestrator

/-- Membership in the revocation selection: exactly the permission
entries that carry the unrestricted range among their CIDRs. -/
theorem mem_selectRevoke {p : IpPermission} {l : List IpPermission} :
    p ∈ selectRevoke l ↔ p ∈ l ∧ unrestricted ∈ p.ipRanges := by
  induction l with
  | nil => simp [selectRevoke]
  | cons q rest ih =>
      simp only [selectRevoke, List.mem_append, List.mem_map, List.mem_filter,
        List.mem_cons, ih, decide_eq_true_eq]
      constructor
      · rintro (⟨r, ⟨hr, hru⟩, rfl⟩ | ⟨hmem, hu⟩)
        · exact ⟨Or.inl rfl, hru ▸ hr⟩
        · exact ⟨Or.inr hmem, hu⟩
      · rintro ⟨(rfl | hmem), hu⟩
        · exact Or.inl ⟨unrestricted, ⟨hu, rfl⟩, rfl⟩
        · exact Or.inr ⟨hmem, hu⟩

/-- The selection is empty exactly when no ingress permission carries
the unrestricted range. -/
theorem selectRevoke_eq_nil {l : List IpPermission} :
    selectRevoke l = [] ↔ ∀ p ∈ l, unrestricted ∉ p.ipRanges := by
  rw [List.eq_nil_iff_forall_not_mem]
  constructor
  · intro h p hp hu
    exact h p (mem_selectRevoke.mpr ⟨hp, hu⟩)
  · intro h p hp
    obtain ⟨hmem, hu⟩ := mem_selectRevoke.mp hp
    exact h p hmem hu

/-- After revoking the selected entries, no remaining ingress
permission of the group carries the unrestricted range: each offending
entry is in the revocation list, which removes all of its ranges
(including the unrestricted one). -/
theorem no_unrestricted_after_applyRevoke (perms : List IpPermission) :
    ∀ p ∈ applyRevoke perms (selectRevoke perms), unrestricted ∉ p.ipRanges := by
  intro p hp hu
  unfold applyRevoke at hp
  obtain ⟨hp1, -⟩ := List.mem_filter.mp hp
  obtain ⟨q, hq, rfl⟩ := List.mem_map.mp hp1
  obtain ⟨hqu, hpred⟩ := List.mem_filter.mp hu
  rw [Bool.not_eq_true'] at hpred
  have hq' : q ∈ selectRevoke perms := mem_selectRevoke.mpr ⟨hq, hqu⟩
  have hany : ((selectRevoke perms).any fun x =>
      x.ipProtocol = q.ipProtocol && x.fromPort = q.fromPort &&
      x.toPort = q.toPort && x.ipRanges.contains unrestricted) = true := by
    refine List.any_eq_true.mpr ⟨q, hq', ?_⟩
    simp [hqu]
  rw [hany] at hpred
  simp at hpred

/-- C1 (amended): `remediate_security_group` reads the group's current
ingress permissions; every entry it revokes carries the unrestricted
CIDR `0.0.0.0/0` and every entry carrying it is revoked, but the entry
is revoked as a whole (all of its CIDR ranges, once per matching
range); when no ingress range is unrestricted it returns `no_action`
without issuing any revoke call, otherwise it issues exactly one revoke
call and returns `success`. -/
theorem C1_security_group_revocation (w : OrchWorld) (rid : String) :
    (∀ p ∈ selectRevoke (w.sgPermissions (lastSplitPart rid "/")),
        unrestricted ∈ p.ipRanges)
    ∧ (∀ p ∈ w.sgPermissions (lastSplitPart rid "/"),
        unrestricted ∈ p.ipRanges →
          p ∈ selectRevoke (w.sgPermissions (lastSplitPart rid "/")))
    ∧ (selectRevoke (w.sgPermissions (lastSplitPart rid "/")) = [] →
        remediate_security_group w rid =
          (⟨"no_action", "No overly permissive rules found for SG " ++
              lastSplitPart rid "/" ++ "."⟩, w))
    ∧ (selectRevoke (w.sgPermissions (lastSplitPart rid "/")) ≠ [] →
        (remediate_security_group w rid).1.status = "success"
        ∧ (remediate_security_group w rid).2.trace =
            w.trace ++ [AwsCall.revokeSecurityGroupIngress (lastSplitPart rid "/")
              (selectRevoke (w.sgPermissions (lastSplitPart rid "/")))]) := by
  refine ⟨fun p hp => (mem_selectRevoke.mp hp).2,
          fun p hp hu => mem_selectRevoke.mpr ⟨hp, hu⟩, ?_, ?_⟩
  · intro h
    simp [remediate_security_group, h]
  · intro h
    have : (selectRevoke (w.sgPermissions (lastSplitPart rid "/"))).isEmpty = false := by
      simp [List.isEmpty_iff, h]
    constructor <;> simp [remediate_security_group, this]

/-- C1 counterexample: for a security group whose single ingress entry
carries both `0.0.0.0/0` and `10.0.0.0/8`, the revoke call issued by
`remediate_security_group` also revokes the `10.0.0.0/8` range (and the
resulting rule set loses it), so not only unrestricted-CIDR rules are
revoked. -/
theorem C1_counterexample :
    "10.0.0.0/8" ∈ revokedRanges (remediate_security_group exWorld exRid).2.trace
    ∧ "10.0.0.0/8" ≠ unrestricted
    ∧ (remediate_security_group exWorld exRid).2.sgPermissions "sg-0a1b2c3d" = [] := by
  decide

/-- C1 witness: on the counterexample group the selection is non-empty,
the call reports `success`, and one revoke call is traced. -/
theorem C1_witness :
    (remediate_security_group exWorld exRid).1.status = "success"
    ∧ (remediate_security_group exWorld exRid).2.trace =
        exWorld.trace ++ [AwsCall.revokeSecurityGroupIngress (lastSplitPart exRid "/")
          (selectRevoke (exWorld.sgPermissions (lastSplitPart exRid "/")))] :=
  (C1_security_group_revocation exWorld exRid).2.2.2 (by decide)

/-- C2: with configuration present and both fields supplied, an action
outside the dispatch table yields a 200 response whose result status is
`skipped` with a descriptive message, leaves the S3 and security-group
state untouched, and appends only an SNS publish (no mutating call) to
the trace. -/
theorem C2_unknown_action_skipped (topic a ridv details : String) (w : OrchWorld)
    (htopic : topic ≠ "") (ha : a ≠ "") (hr : ridv ≠ "")
    (h1 : a ≠ "remediate_s3_public_access") (h2 : a ≠ "remediate_security_group") :
    (lambda_handler (some topic) ⟨some a, some ridv, details⟩ w).1 =
      ⟨200, Body.jsonResult ⟨"skipped", "Unknown action \x27" ++ a ++ "\x27."⟩⟩
    ∧ (lambda_handler (some topic) ⟨some a, some ridv, details⟩ w).2.s3PublicAccess =
        w.s3PublicAccess
    ∧ (lambda_handler (some topic) ⟨some a, some ridv, details⟩ w).2.sgPermissions =
        w.sgPermissions
    ∧ ∃ s m, (lambda_handler (some topic) ⟨some a, some ridv, details⟩ w).2.trace =
        w.trace ++ [AwsCall.snsPublish topic s m] := by
  have htopic' := pyTruthy_some_of_ne htopic
  have ha' := pyTruthy_some_of_ne ha
  have hr' := pyTruthy_some_of_ne hr
  refine ⟨?_, ?_, ?_, ?_⟩ <;>
    simp [lambda_handler, htopic', ha', hr', h1, h2]

/-- C2 witness: a concrete unknown action is skipped without mutation. -/
theorem C2_witness :
    (lambda_handler (some "arn:aws:sns:us-east-1:1:t")
        ⟨some "remediate_nat_gateway", some "vpc-1", "\x7b\x7d"⟩ exWorld).1 =
      ⟨200, Body.jsonResult ⟨"skipped",
        "Unknown action \x27remediate_nat_gateway\x27."⟩⟩ :=
  (C2_unknown_action_skipped "arn:aws:sns:us-east-1:1:t" "remediate_nat_gateway"
    "vpc-1" "\x7b\x7d" exWorld (by decide) (by decide) (by decide) (by decide)
    (by decide)).1

/-- C3: `remediate_s3_public_access` run twice on the same resource
reports `success` both times and the second run changes neither the S3
public-access state nor the security-group state; once
`remediate_security_group` has run (removing every unrestricted-CIDR
ingress rule), a second identical run reports `no_action` and leaves
the world exactly as it was (no further call, no state change). -/
theorem C3_remediation_idempotent (w : OrchWorld) (rid : String) :
    ((remediate_s3_public_access w rid).1.status = "success"
     ∧ (remediate_s3_public_access (remediate_s3_public_access w rid).2 rid).1.status =
         "success"
     ∧ (remediate_s3_public_access (remediate_s3_public_access w rid).2 rid).2.s3PublicAccess =
         (remediate_s3_public_access w rid).2.s3PublicAccess
     ∧ (remediate_s3_public_access (remediate_s3_public_access w rid).2 rid).2.sgPermissions =
         (remediate_s3_public_access w rid).2.sgPermissions)
    ∧ ((remediate_security_group (remediate_security_group w rid).2 rid).1.status =
         "no_action"
       ∧ (remediate_security_group (remediate_security_group w rid).2 rid).2 =
           (remediate_security_group w rid).2) := by
  constructor
  · refine ⟨rfl, rfl, ?_, rfl⟩
    funext b
    simp only [remediate_s3_public_access]
    by_cases hb : b = lastSplitPart rid ":::" <;> simp [hb]
  · by_cases h : selectRevoke (w.sgPermissions (lastSplitPart rid "/")) = []
    · have hfst : remediate_security_group w rid =
          (⟨"no_action", "No overly permissive rules found for SG " ++
              lastSplitPart rid "/" ++ "."⟩, w) := by
        simp [remediate_security_group, h]
      rw [hfst]
      simp [remediate_security_group, h]
    · have hne : (selectRevoke (w.sgPermissions (lastSplitPart rid "/"))).isEmpty = false := by
        simp [List.isEmpty_iff, h]
      have hperm2 : (remediate_security_group w rid).2.sgPermissions (lastSplitPart rid "/") =
          applyRevoke (w.sgPermissions (lastSplitPart rid "/"))
            (selectRevoke (w.sgPermissions (lastSplitPart rid "/"))) := by
        simp [remediate_security_group, hne]
      have hnil : selectRevoke ((remediate_security_group w rid).2.sgPermissions
          (lastSplitPart rid "/")) = [] := by
        rw [hperm2]
        exact selectRevoke_eq_nil.mpr (no_unrestricted_after_applyRevoke _)
      generalize hg : (remediate_security_group w rid).2 = w1 at hnil ⊢
      constructor <;> simp [remediate_security_group, hnil]

/-- C10: with configuration present, a request missing the `action`
field or the `resourceId` field is rejected with status code 400 and
the world is returned untouched: no mutating infrastructure call and no
SNS publish happens. -/
theorem C10_missing_fields_rejected (topicArn : Option String) (event : Event)
    (w : OrchWorld) (htopic : pyTruthy topicArn = true)
    (hmiss : event.action = none ∨ event.resourceId = none) :
    lambda_handler topicArn event w =
      (⟨400, Body.jsonStr "Bad Request: Missing action or resourceId."⟩, w) := by
  have hnone : pyTruthy (none : Option String) = false := rfl
  rcases hmiss with h | h <;> simp [lambda_handler, htopic, h, hnone]

/-- C10 witness: a concrete request with no `action` field is rejected
with 400 and an unchanged world. -/
theorem C10_witness :
    lambda_handler (some "arn:aws:sns:us-east-1:1:t")
        ⟨none, some "arn:aws:s3:::bkt", "\x7b\x7d"⟩ exWorld =
      (⟨400, Body.jsonStr "Bad Request: Missing action or resourceId."⟩, exWorld) :=
  C10_missing_fields_rejected (some "arn:aws:sns:us-east-1:1:t")
    ⟨none, some "arn:aws:s3:::bkt", "\x7b\x7d"⟩ exWorld (by decide) (Or.inl rfl)

end RemediationOrchestrator

namespace AnomalyDetectorTrigger

/-- C7: once configuration is validated, any error in the detection
cycle — a non-`NoSuchKey` failure of the data fetch, or the `NameError`
raised on the success path — ends with a 500 structured failure result
and exactly one operator-visible alert published; the handler is a
total function, so no exception propagates to the caller. -/
theorem C7_error_alert (env : TriggerEnv) (ctx : TriggerCtx)
    (s3Object : Except ClientErr String)
    (henv : envComplete env = true) (herr : cycleError s3Object) :
    (lambda_handler env ctx s3Object).1.statusCode = 500
    ∧ (lambda_handler env ctx s3Object).2.published.length = 1 := by
  cases s3Object with
  | error e =>
      have hne : e.code ≠ "NoSuchKey" := herr
      constructor <;> simp [lambda_handler, henv, hne]
  | ok b =>
      constructor <;> simp [lambda_handler, henv]

/-- C7 witness: a concrete access-denied fetch yields the alert and the
500 result. -/
theorem C7_witness :
    (lambda_handler ⟨some "ep", some "bkt", some "topic", some "sfn"⟩ ⟨"fn", "arn"⟩
        (.error ⟨"AccessDenied", "denied"⟩)).1.statusCode = 500
    ∧ (lambda_handler ⟨some "ep", some "bkt", some "topic", some "sfn"⟩ ⟨"fn", "arn"⟩
        (.error ⟨"AccessDenied", "denied"⟩)).2.published.length = 1 :=
  C7_error_alert ⟨some "ep", some "bkt", some "topic", some "sfn"⟩ ⟨"fn", "arn"⟩
    (.error ⟨"AccessDenied", "denied"⟩) (by decide)
    (by show ("AccessDenied" : String) ≠ "NoSuchKey"; decide)

/-- C8: when the fetch reports the latest feature batch missing
(`NoSuchKey`), the cycle ends as a 200 success with the "no new data"
body, publishing nothing, invoking no scorer endpoint and starting no
execution. -/
theorem C8_no_new_data (env : TriggerEnv) (ctx : TriggerCtx) (m : String)
    (henv : envComplete env = true) :
    lambda_handler env ctx (.error ⟨"NoSuchKey", m⟩) =
      (⟨200, "No new data for inference."⟩, ⟨[], 0, 0⟩) := by
  simp [lambda_handler, henv]

/-- C8 witness: the concrete missing-object cycle returns the no-new-data
success with no side effects. -/
theorem C8_witness :
    lambda_handler ⟨some "ep", some "bkt", some "topic", some "sfn"⟩ ⟨"fn", "arn"⟩
        (.error ⟨"NoSuchKey", "key absent"⟩) =
      (⟨200, "No new data for inference."⟩, ⟨[], 0, 0⟩) :=
  C8_no_new_data ⟨some "ep", some "bkt", some "topic", some "sfn"⟩ ⟨"fn", "arn"⟩
    "key absent" (by decide)

end AnomalyDetectorTrigger

namespace BedrockAnalyzer

/-- C9: with configuration present, a resource id long enough that the
activity-lookup request can even be built (at least seven `/`-parts —
otherwise line 64's `split('/')[6]` raises an `IndexError` that no
`except ClientError` catches), all three evidence lookups finding
nothing or failing with a collaborator `ClientError`, the template
fetched and non-empty, and narrative generation and publish succeeding,
`enrich` still succeeds: the evidence string is empty, the handler
returns the 200 result carrying the narrative, and exactly the enriched
alert is published. -/
theorem C9_graceful_degradation (env : AnalyzerEnv) (event : AnalyzerEvent)
    (o : AnalyzerOracle) (rid tpl compl : String)
    (henv : (pyTruthy env.bedrockModelId && pyTruthy env.snsAnomalyTopicArn &&
        pyTruthy env.processedDataBucket) = true)
    (hrid : event.resourceId = some rid)
    (hparts : ¬((pySplit rid "/").length < 7))
    (hconf : emptyOrClientErr o.evidence.configHistory)
    (htrail : emptyOrClientErr o.evidence.trailEvents)
    (hcost : emptyOrClientErr o.evidence.costUsage)
    (htpl : o.promptTemplate = .ok tpl) (htplne : tpl ≠ "")
    (hllm : o.bedrockCompletion = .ok compl)
    (hsns : o.snsPublish = .ok ()) :
    get_contextual_data rid o.evidence = .ok ""
    ∧ (lambda_handler env event o).1 =
        .ok ⟨200, "Bedrock analysis completed and alert sent.", some compl⟩
    ∧ (lambda_handler env event o).2.length = 1 := by
  have hctx : get_contextual_data rid o.evidence = .ok "" := by
    have hnil : String.intercalate "\n" ([] : List String) = "" := rfl
    rcases hconf with hc | ⟨e1, hc⟩ <;> rcases htrail with ht | ⟨e2, ht⟩ <;>
      rcases hcost with hco | ⟨e3, hco⟩ <;>
        simp [get_contextual_data, hparts, hc, ht, hco, hnil]
  refine ⟨hctx, ?_, ?_⟩ <;>
    simp [lambda_handler, henv, hrid, htpl, htplne, hctx, hllm, hsns]

/-- C9 witness: a concrete run with empty evidence still returns the
200 narrative result. -/
theorem C9_witness :
    get_contextual_data "a/b/c/d/e/f/g"
        (⟨.ok [], .ok [], .ok []⟩ : EvidenceOracle) = .ok ""
    ∧ (lambda_handler ⟨some "model-id", some "topic", some "bucket"⟩
        ⟨some "a/b/c/d/e/f/g", some "EgressCostSpike", some "12.5", "raw"⟩
        ⟨.ok "Analyze.", ⟨.ok [], .ok [], .ok []⟩, .ok "Root cause: spike.", .ok ()⟩).1 =
        .ok ⟨200, "Bedrock analysis completed and alert sent.", some "Root cause: spike."⟩ :=
  have h := C9_graceful_degradation ⟨some "model-id", some "topic", some "bucket"⟩
    ⟨some "a/b/c/d/e/f/g", some "EgressCostSpike", some "12.5", "raw"⟩
    ⟨.ok "Analyze.", ⟨.ok [], .ok [], .ok []⟩, .ok "Root cause: spike.", .ok ()⟩
    "a/b/c/d/e/f/g" "Analyze." "Root cause: spike."
    (by decide) rfl (by decide) (Or.inl rfl) (Or.inl rfl) (Or.inl rfl) rfl
    (by decide) rfl rfl
  ⟨h.1, h.2.1⟩

end BedrockAnalyzer

namespace InferenceScript

open PandasModel

/-- Assigning a column absent from a row appends it. -/
theorem setField_of_fresh (r : Row) (n : String) (v : Value)
    (h : ∀ p ∈ r, p.1 ≠ n) : setField r n v = r ++ [(n, v)] := by
  have hany : (r.any fun p => p.1 = n) = false := by
    rw [List.any_eq_false]
    intro p hp
    simpa using h p hp
  simp [setField, hany]

/-- C4: on a batch with numeric feature columns and without the output
column names, `score` (i.e. `predict_fn` then `output_fn`) returns
exactly one result row per input row, in input order, each being the
input row unchanged with exactly two fields appended: `is_anomaly`
(1 iff the forest predicts -1) and `anomaly_score` (the decision-function
value). -/
theorem C4_score_order_and_fields (rows : List Row) (model : IFModel)
    (hfresh : ∀ r ∈ rows, ∀ p ∈ r, p.1 ≠ "is_anomaly" ∧ p.1 ≠ "anomaly_score")
    (hfeat : noNumericFeatures rows = false) :
    score rows model "application/json" =
      .ok (rows.map (fun r => r ++
        [("is_anomaly",
          Value.num (if model.predictRow (numericValues r) = -1 then 1 else 0)),
         ("anomaly_score", Value.num (model.decisionRow (numericValues r)))]),
        "application/json")
    ∧ (rows.map (fun r => r ++
        [("is_anomaly",
          Value.num (if model.predictRow (numericValues r) = -1 then 1 else 0)),
         ("anomaly_score", Value.num (model.decisionRow (numericValues r)))])).length =
      rows.length := by
  have hmap : rows.map (fun r =>
      setField
        (setField r "is_anomaly"
          (Value.num (if model.predictRow (numericValues r) = -1 then 1 else 0)))
        "anomaly_score" (Value.num (model.decisionRow (numericValues r)))) =
      rows.map (fun r => r ++
        [("is_anomaly",
          Value.num (if model.predictRow (numericValues r) = -1 then 1 else 0)),
         ("anomaly_score", Value.num (model.decisionRow (numericValues r)))]) := by
    apply List.map_congr_left
    intro r hr
    rw [setField_of_fresh r "is_anomaly" _ (fun p hp => (hfresh r hr p hp).1),
      setField_of_fresh _ "anomaly_score" _ ?_, List.append_assoc]
    · rfl
    · intro p hp
      rcases List.mem_append.mp hp with h | h
      · exact (hfresh r hr p h).2
      · simp at h
        subst h
        simp
  refine ⟨?_, by simp⟩
  simp [score, predict_fn, hfeat, output_fn, hmap]

/-- C4 witness: the two-row batch is scored in order with the two
appended fields. -/
theorem C4_witness :
    noNumericFeatures exRows = false
    ∧ score exRows exModel "application/json" =
      .ok (exRows.map (fun r => r ++
        [("is_anomaly",
          Value.num (if exModel.predictRow (numericValues r) = -1 then 1 else 0)),
         ("anomaly_score", Value.num (exModel.decisionRow (numericValues r)))]),
        "application/json") :=
  ⟨by decide,
   (C4_score_order_and_fields exRows exModel (by decide) (by decide)).1⟩

end InferenceScript

/-- C5: `fit`, `transform`, `train` and `score` each fail on a
zero-row input with the empty-input error (the spec's
`EmptyInputError`; in the Python stack a `ValueError`), rather than
succeeding or returning an empty result. -/
theorem C5_empty_input_guard :
    FeatureBuilder.fit [] = .error .emptyInput
    ∧ (∀ t, FeatureBuilder.transform t [] = .error .emptyInput)
    ∧ TrainingScript.train [] = .error (.valueError
        "No numerical features found in the training data. Check feature engineering output.")
    ∧ ∀ m accept, InferenceScript.score [] m accept = .error (.valueError
        "No numerical features found in input data for prediction. Check input schema.") :=
  ⟨rfl, fun _ => rfl, rfl, fun _ _ => rfl⟩

namespace FeatureBuilder

/-- C6: a categorical value absent from the fitted vocabulary does not
make `transform` raise; its one-hot block is all zeros, and every other
output column (the scaled numerics and the other features' blocks) is
computed as for an observation that agrees on the other fields. -/
theorem C6_unseen_category (t : FittedPreprocessor) (o o2 : Obs) (f : CatField)
    (hunseen : catValue o f ∉ t.vocab f)
    (hnum1 : o2.daily_egress_cost_usd = o.daily_egress_cost_usd)
    (hnum2 : o2.daily_egress_usage_amount = o.daily_egress_usage_amount)
    (hcat : ∀ g : CatField, g ≠ f → catValue o2 g = catValue o g) :
    transform t [o] = .ok [transformRow t o]
    ∧ indicatorBlock t o f = List.replicate (t.vocab f).length 0
    ∧ scaledNumeric t o2 = scaledNumeric t o
    ∧ ∀ g : CatField, g ≠ f → indicatorBlock t o2 g = indicatorBlock t o g := by
  refine ⟨by simp [transform], ?_, ?_, ?_⟩
  · rw [indicatorBlock, oheIndicator, List.eq_replicate_iff]
    refine ⟨by simp, ?_⟩
    intro b hb
    obtain ⟨c, hc, rfl⟩ := List.mem_map.mp hb
    rw [if_neg]
    intro hceq
    exact hunseen (hceq ▸ hc)
  · simp [scaledNumeric, hnum1, hnum2]
  · intro g hg
    simp [indicatorBlock, hcat g hg]

/-- C6 witness: the unseen region value does not raise and yields the
all-zero region block. -/
theorem C6_witness :
    catValue exObsUnseen .region ∉ exFitted.vocab .region
    ∧ transform exFitted [exObsUnseen] = .ok [transformRow exFitted exObsUnseen]
    ∧ indicatorBlock exFitted exObsUnseen .region =
        List.replicate (exFitted.vocab .region).length 0 :=
  have h := C6_unseen_category exFitted exObsUnseen exObsSeen .region
    (by decide) rfl rfl (by decide)
  ⟨by decide, h.1, h.2.1⟩

end FeatureBuilder
